import Mathlib

/-!
Verification of the metadata serialization layer of the `gwbenchmark2g`
repository (`src/gwbenchmark2g/io.py` and the metadata-construction part of
`src/gwbenchmark2g/simulate.py`).

The Python runtime values that flow through this code are modelled by the
inductive type `PyVal`; Python dicts are modelled as ordered association
lists (insertion order, unique keys when built by the interpreter), matching
CPython dict semantics.  Python floats are modelled as rationals: the code
under verification never performs float arithmetic on them, it only stores
and reloads them.

The pyarrow layer (`pa.Table.from_pylist` with an explicit schema,
`pq.write_table` / `pq.read_table`, `Table.to_pylist`) is modelled from
pyarrow's documented conversion semantics:
  * `from_pylist` with a schema builds one column per schema field, looking
    each field name up in every row dict; a missing key or a `None` becomes
    a null; dict keys that are not schema fields are ignored;
  * Python ints are accepted for float64 columns; otherwise values must
    match the column type;
  * a struct field is built by looking up each struct child name in the
    given dict, missing children becoming null; unrelated keys are ignored;
  * a map field accepts a dict or a list of 2-tuples;
  * writing the table to parquet and reading it back is modelled as the
    identity on the table contents;
  * `to_pylist` returns one dict per row, map values as lists of 2-tuples,
    struct values as dicts, nulls as `None`.
-/

/-- Model of the Python runtime values handled by the codec: `None`, ints,
floats (as rationals; no float arithmetic is ever performed on them), strings,
lists, dicts (ordered association lists, as CPython dicts), and 2-tuples whose
first component is a string (the shape of decoded map entries). -/
inductive PyVal : Type where
  | none : PyVal
  | int (n : ℤ) : PyVal
  | float (q : ℚ) : PyVal
  | str (s : String) : PyVal
  | list (xs : List PyVal) : PyVal
  | dict (kvs : List (String × PyVal)) : PyVal
  | pair (k : String) (v : PyVal) : PyVal

/-- Lookup of a key in a Python dict (first — and, for interpreter-built
dicts, only — occurrence). -/
def pyLookup : List (String × PyVal) → String → Option PyVal
  | [], _ => Option.none
  | (k', v) :: rest, k => if k' == k then Option.some v else pyLookup rest k

/-- Python dict assignment `d[k] = v`: replaces the value in place if the key
is present (keeping its position), otherwise appends the new pair. -/
def dictAssign : List (String × PyVal) → String → PyVal → List (String × PyVal)
  | [], k, v => [(k, v)]
  | (k', v') :: rest, k, v =>
    if k' == k then (k', v) :: rest else (k', v') :: dictAssign rest k v

/-- Extracts the (key, value) 2-tuples from a Python list.  Elements that are
not 2-tuples would make CPython raise a TypeError; they never occur in data
decoded from a stored map, so they are skipped here. -/
def pairsOf (xs : List PyVal) : List (String × PyVal) :=
  xs.filterMap fun x =>
    match x with
    | .pair k v => Option.some (k, v)
    | _ => Option.none

/-- Python `dict(pairs)`: builds a dict from a sequence of 2-tuples by
repeated assignment, so a duplicated key keeps its first position but takes
its last value. -/
def dictOfPairs (ps : List (String × PyVal)) : List (String × PyVal) :=
  ps.foldl (fun acc kv => dictAssign acc kv.1 kv.2) []

/-- Python `d.update(other)` where `other` is a dict or an iterable of
2-tuples: assigns every pair of `other` into `d` in order. -/
def pyUpdate (d : List (String × PyVal)) (other : PyVal) : List (String × PyVal) :=
  match other with
  | .dict kvs => kvs.foldl (fun acc kv => dictAssign acc kv.1 kv.2) d
  | .list xs => (pairsOf xs).foldl (fun acc kv => dictAssign acc kv.1 kv.2) d
  | _ => d

/-- Python truthiness of the values that occur in this code: `None`, zero,
the empty string, the empty list and the empty dict are falsy. -/
def pyTruthy : PyVal → Bool
  | .none => false
  | .int n => n != 0
  | .float q => q != 0
  | .str s => s != ""
  | .list xs => !xs.isEmpty
  | .dict kvs => !kvs.isEmpty
  | .pair _ _ => true

/-- Python `dict(value)` applied to a list of 2-tuples or to a dict (a copy).
Other arguments would raise a TypeError in CPython; they never occur on the
call sites of this repository, and are returned unchanged here. -/
def pyDictCast : PyVal → PyVal
  | .list xs => .dict (dictOfPairs (pairsOf xs))
  | .dict kvs => .dict kvs
  | v => v

/-- Arrow column types used by `INJECTION_METADATA_SCHEMA` in
`src/gwbenchmark2g/io.py`: `pa.int64()`, `pa.float64()`, `pa.string()`,
`pa.map_(pa.string(), ·)`, and the one `pa.struct` of three named fields
(each carrying its declared nullability flag). -/
inductive AType : Type where
  | int64 : AType
  | float64 : AType
  | string : AType
  | map (value : AType) : AType
  | struct3 (n1 : String) (t1 : AType) (nb1 : Bool)
      (n2 : String) (t2 : AType) (nb2 : Bool)
      (n3 : String) (t3 : AType) (nb3 : Bool) : AType
deriving DecidableEq

/-- Arrow column values stored in a table: nulls, primitives, map entries (an
ordered list of key/value pairs) and struct values (named fields). -/
inductive AVal : Type where
  | null : AVal
  | int (n : ℤ) : AVal
  | float (q : ℚ) : AVal
  | str (s : String) : AVal
  | map (entries : List (String × AVal)) : AVal
  | struct (fields : List (String × AVal)) : AVal

/-- Conversion of the entries of a Python dict into Arrow map entries, each
value converted by the map's value converter. -/
def convertEntriesD (f : PyVal → Except String AVal) :
    List (String × PyVal) → Except String (List (String × AVal))
  | [] => .ok []
  | (k, v) :: rest =>
      match f v with
      | .error e => .error e
      | .ok a =>
        match convertEntriesD f rest with
        | .error e => .error e
        | .ok r => .ok ((k, a) :: r)

/-- Conversion of a Python list of 2-tuples into Arrow map entries, each
value converted by the map's value converter. -/
def convertEntriesL (f : PyVal → Except String AVal) :
    List PyVal → Except String (List (String × AVal))
  | [] => .ok []
  | .pair k v :: rest =>
      match f v with
      | .error e => .error e
      | .ok a =>
        match convertEntriesL f rest with
        | .error e => .error e
        | .ok r => .ok ((k, a) :: r)
  | _ :: _ => .error "ArrowTypeError: map entries must be pairs"

/-- Conversion of one Python value to an Arrow value of the given type,
modelled from pyarrow's Python-object conversion: `None` becomes null for any
type, ints are accepted for float64, maps accept dicts or lists of 2-tuples,
and a struct is built by name lookup with missing children null (the
`nullable` flags of struct children are metadata and are not enforced by the
conversion). -/
def convert : AType → PyVal → Except String AVal
  | .int64, v =>
      match v with
      | .none => .ok .null
      | .int n => .ok (.int n)
      | _ => .error "ArrowTypeError: an integer is required"
  | .float64, v =>
      match v with
      | .none => .ok .null
      | .float q => .ok (.float q)
      | .int n => .ok (.float (n : ℚ))
      | _ => .error "ArrowTypeError: a float is required"
  | .string, v =>
      match v with
      | .none => .ok .null
      | .str s => .ok (.str s)
      | _ => .error "ArrowTypeError: a string is required"
  | .map t, v =>
      match v with
      | .none => .ok .null
      | .dict kvs => Except.map AVal.map (convertEntriesD (fun w => convert t w) kvs)
      | .list xs => Except.map AVal.map (convertEntriesL (fun w => convert t w) xs)
      | _ => .error "ArrowTypeError: could not convert to map"
  | .struct3 n1 t1 _ n2 t2 _ n3 t3 _, v =>
      match v with
      | .none => .ok .null
      | .dict kvs =>
        match convert t1 ((pyLookup kvs n1).getD .none) with
        | .error e => .error e
        | .ok v1 =>
          match convert t2 ((pyLookup kvs n2).getD .none) with
          | .error e => .error e
          | .ok v2 =>
            match convert t3 ((pyLookup kvs n3).getD .none) with
            | .error e => .error e
            | .ok v3 => .ok (.struct [(n1, v1), (n2, v2), (n3, v3)])
      | _ => .error "ArrowTypeError: could not convert to struct"

mutual

/-- The Python value produced for one Arrow value by `Table.to_pylist`: nulls
become `None`, map entries become a list of 2-tuples, struct values become a
dict. -/
def toPy : AVal → PyVal
  | .null => .none
  | .int n => .int n
  | .float q => .float q
  | .str s => .str s
  | .map es => .list (toPyPairs es)
  | .struct fs => .dict (toPyFields fs)

/-- Map entries rendered as a Python list of 2-tuples by `to_pylist`. -/
def toPyPairs : List (String × AVal) → List PyVal
  | [] => []
  | (k, v) :: rest => .pair k (toPy v) :: toPyPairs rest

/-- Struct fields rendered as a Python dict by `to_pylist`. -/
def toPyFields : List (String × AVal) → List (String × PyVal)
  | [] => []
  | (k, v) :: rest => (k, toPy v) :: toPyFields rest

end
/-- `INJECTION_METADATA_SCHEMA` from `src/gwbenchmark2g/io.py`: one
(name, type, nullable) triple per `pa.field`.  Note: there is no
`fixed_parameters` field. -/
def INJECTION_METADATA_SCHEMA : List (String × AType × Bool) :=
  [("injection_parameters", .map .float64, true),
   ("waveform_kwargs",
      .struct3 "ints" (.map .int64) false
               "floats" (.map .float64) false
               "strings" (.map .string) false,
      false),
   ("seed", .int64, true),
   ("detectors", .map (.map .float64), false),
   ("duration", .float64, false),
   ("sampling_frequency", .float64, false),
   ("network_optimal_snr", .float64, true),
   ("network_matched_filter_snr", .float64, true)]

/-- One row of a stored table: one Arrow value per schema column. -/
abbrev Row := List (String × AVal)

/-- A stored table: a list of rows (pyarrow stores columns; the row-major
view is equivalent and is the one every function here observes). -/
abbrev Table := List Row

/-- One row of `pa.Table.from_pylist(rows, schema=...)`: each schema field
name is looked up in the row dict (a missing key becomes `None`, hence null)
and converted to the field type; keys of the dict that are not schema fields
are ignored. -/
def fromPyRow : List (String × AType × Bool) → List (String × PyVal) → Except String Row
  | [], _ => .ok []
  | (name, ty, _) :: rest, d =>
      match convert ty ((pyLookup d name).getD .none) with
      | .error e => .error e
      | .ok v =>
        match fromPyRow rest d with
        | .error e => .error e
        | .ok r => .ok ((name, v) :: r)

/-- Effectful map over a list in the `Except` monad, as a Python list
comprehension: the first exception aborts the whole list. -/
def exceptMap (f : α → Except String β) : List α → Except String (List β)
  | [] => .ok []
  | x :: xs =>
      match f x with
      | .error e => .error e
      | .ok y =>
        match exceptMap f xs with
        | .error e => .error e
        | .ok ys => .ok (y :: ys)

/-- `pa.Table.from_pylist(rows, schema=...)`: converts every row; the first
conversion failure aborts the whole construction. -/
def fromPylist (schema : List (String × AType × Bool)) (rows : List (List (String × PyVal))) :
    Except String Table :=
  exceptMap (fromPyRow schema) rows

/-- The dataclass `InjectionMetaData` from `src/gwbenchmark2g/simulate.py`.
Python is dynamically typed and the dataclass performs no type validation, so
every field holds a `PyVal`; the last two fields have default `None`. -/
structure InjectionMetaData : Type where
  injection_parameters : PyVal
  fixed_parameters : PyVal
  waveform_kwargs : PyVal
  seed : PyVal
  detectors : PyVal
  duration : PyVal
  sampling_frequency : PyVal
  network_optimal_snr : PyVal := .none
  network_matched_filter_snr : PyVal := .none

/-- `dataclasses.asdict(m)`: the dict of the nine fields in declaration
order. -/
def asdict (m : InjectionMetaData) : List (String × PyVal) :=
  [("injection_parameters", m.injection_parameters),
   ("fixed_parameters", m.fixed_parameters),
   ("waveform_kwargs", m.waveform_kwargs),
   ("seed", m.seed),
   ("detectors", m.detectors),
   ("duration", m.duration),
   ("sampling_frequency", m.sampling_frequency),
   ("network_optimal_snr", m.network_optimal_snr),
   ("network_matched_filter_snr", m.network_matched_filter_snr)]

/-- `save_metadata` from `src/gwbenchmark2g/io.py`: `asdict` on every record,
then `pa.Table.from_pylist(..., schema=INJECTION_METADATA_SCHEMA)`, then
`pq.write_table`.  Writing the parquet file and reading it back is modelled
as the identity on the table contents, so the function returns the stored
table. -/
def save_metadata (metadata : List InjectionMetaData) : Except String Table :=
  fromPylist INJECTION_METADATA_SCHEMA (metadata.map asdict)

/-- One row of `Table.to_pylist()`. -/
def toPyRow (row : Row) : List (String × PyVal) :=
  row.map fun kv => (kv.1, toPy kv.2)

/-- `Table.to_pylist()`: one Python dict per row. -/
def toPylist (t : Table) : List (List (String × PyVal)) :=
  t.map toPyRow

/-- The waveform-kwargs category names iterated by `_parse_metadata_dict`,
in its exact order. -/
def wkCategories : List String := ["ints", "floats", "strings"]

/-- The per-key body of `_parse_metadata_dict` from `src/gwbenchmark2g/io.py`
(lines 137-168): the parsed value assigned to `parsed[key]` for one
`key, value` pair of the input dict. -/
def parseField (key : String) (value : PyVal) : PyVal :=
  if key == "injection_parameters" then
    if pyTruthy value then pyDictCast value else .none
  else if key == "waveform_kwargs" then
    match value with
    | .dict kvs =>
      if (pyLookup kvs "floats").isSome || (pyLookup kvs "ints").isSome
          || (pyLookup kvs "strings").isSome then
        .dict (wkCategories.foldl
          (fun acc c =>
            match pyLookup kvs c with
            | Option.some cv => if pyTruthy cv then pyUpdate acc cv else acc
            | Option.none => acc)
          [])
      else value
    | _ => value
  else if key == "detectors" then
    match value with
    | .list xs =>
      .dict ((pairsOf xs).foldl
        (fun acc kv => dictAssign acc kv.1 (pyDictCast kv.2)) [])
    | .dict kvs =>
      .dict (kvs.foldl
        (fun acc kv => dictAssign acc kv.1 (pyDictCast kv.2)) [])
    | _ => .dict []
  else value

/-- `_parse_metadata_dict` from `src/gwbenchmark2g/io.py`: builds `parsed` by
assigning `parsed[key]` for every `key, value` of the input dict in order.
Input dicts come from `to_pylist` and have unique keys, so the loop of
assignments is exactly a map over the entries. -/
def parse_metadata_dict (data : List (String × PyVal)) : List (String × PyVal) :=
  data.map fun kv => (kv.1, parseField kv.1 kv.2)

/-- The field names of the `InjectionMetaData` dataclass, in declaration
order. -/
def dataclassFieldNames : List String :=
  ["injection_parameters", "fixed_parameters", "waveform_kwargs", "seed",
   "detectors", "duration", "sampling_frequency", "network_optimal_snr",
   "network_matched_filter_snr"]

/-- The dataclass fields without a default value: every field up to
`sampling_frequency`. -/
def requiredFieldNames : List String :=
  ["injection_parameters", "fixed_parameters", "waveform_kwargs", "seed",
   "detectors", "duration", "sampling_frequency"]

/-- The TypeError message raised by `InjectionMetaData(**kwargs)` when
required arguments are missing (text abridged from CPython's message). -/
def missingArgsMsg (names : List String) : String :=
  "TypeError: InjectionMetaData.__init__() missing required positional arguments: "
    ++ String.intercalate ", " names

/-- `InjectionMetaData(**kwargs)`: fails with a TypeError if a keyword is not
a dataclass field or if a required field is missing; otherwise builds the
record, the two trailing fields defaulting to `None`. -/
def mkInjectionMetaData (kwargs : List (String × PyVal)) : Except String InjectionMetaData :=
  let keys := kwargs.map Prod.fst
  if keys.any (fun k => !(dataclassFieldNames.contains k)) then
    .error "TypeError: InjectionMetaData.__init__() got an unexpected keyword argument"
  else
    match requiredFieldNames.filter (fun f => !(keys.contains f)) with
    | [] =>
        .ok { injection_parameters := (pyLookup kwargs "injection_parameters").getD .none
              fixed_parameters := (pyLookup kwargs "fixed_parameters").getD .none
              waveform_kwargs := (pyLookup kwargs "waveform_kwargs").getD .none
              seed := (pyLookup kwargs "seed").getD .none
              detectors := (pyLookup kwargs "detectors").getD .none
              duration := (pyLookup kwargs "duration").getD .none
              sampling_frequency := (pyLookup kwargs "sampling_frequency").getD .none
              network_optimal_snr := (pyLookup kwargs "network_optimal_snr").getD .none
              network_matched_filter_snr :=
                (pyLookup kwargs "network_matched_filter_snr").getD .none }
    | missing => .error (missingArgsMsg missing)

/-- `read_metadata` from `src/gwbenchmark2g/io.py`: `to_pylist` on the stored
table, then `InjectionMetaData(**_parse_metadata_dict(d))` for every row (the
first exception aborts the list comprehension). -/
def read_metadata (t : Table) : Except String (List InjectionMetaData) :=
  exceptMap (fun d => mkInjectionMetaData (parse_metadata_dict d)) (toPylist t)

/-- `read_single_metadata_raw` from `src/gwbenchmark2g/io.py`: checks
`row_index < 0 or row_index >= len(table)` and raises an IndexError with the
message `f"Row index \x7brow_index\x7d out of range [0, \x7blen(table)\x7d)"`;
otherwise returns `table.slice(row_index, 1).to_pylist()[0]`. -/
def read_single_metadata_raw (t : Table) (row_index : ℤ) : Except String (List (String × PyVal)) :=
  let n : ℕ := t.length
  if h : row_index < 0 ∨ (n : ℤ) ≤ row_index then
    .error s!"Row index {row_index} out of range [0, {n})"
  else
    .ok (toPyRow (t.get ⟨row_index.toNat, by omega⟩))

/-- `read_single_metadata` from `src/gwbenchmark2g/io.py`: the raw row, then
`InjectionMetaData(**_parse_metadata_dict(data))`. -/
def read_single_metadata (t : Table) (row_index : ℤ) : Except String InjectionMetaData :=
  match read_single_metadata_raw t row_index with
  | .error e => .error e
  | .ok d => mkInjectionMetaData (parse_metadata_dict d)

/-- The per-interferometer quantities `simulate_level_0` reads from the bilby
`InterferometerList`: the detector name, the frequency bounds, and the
externally computed SNRs (`meta_data["optimal_SNR"]` and the real part of
`meta_data["matched_filter_SNR"]`), all opaque outputs of the simulation
library. -/
structure IfoMeta : Type where
  name : String
  minimum_frequency : ℚ
  maximum_frequency : ℚ
  optimal_SNR : ℚ
  matched_filter_SNR_real : ℚ

/-- The per-detector metadata dict built inside the loop of
`simulate_level_0` (lines 114-121 of `src/gwbenchmark2g/simulate.py`). -/
def detectorEntry (blind : Bool) (ifo : IfoMeta) : PyVal :=
  .dict [("minimum_frequency", .float ifo.minimum_frequency),
         ("maximum_frequency", .float ifo.maximum_frequency),
         ("optimal_snr", if blind then .none else .float ifo.optimal_SNR),
         ("matched_filter_snr", if blind then .none else .float ifo.matched_filter_SNR_real)]

/-- The `InjectionMetaData` built by one iteration of `simulate_level_0`
(lines 82-121 of `src/gwbenchmark2g/simulate.py`).  The sampled `parameters`,
the waveform arguments, the fixed parameters and the float values of the two
`sum(...) ** 0.5` network-SNR expressions are opaque outputs of the external
simulation library and of Python float arithmetic, and are taken as inputs;
the latter two are only used when `blind` is false. -/
def simulate_level_0_metadata (blind : Bool) (seed : ℤ) (duration sampling_frequency : ℚ)
    (parameters : List (String × PyVal)) (waveform_arguments : List (String × PyVal))
    (fixed_parameters : PyVal)
    (network_optimal_snr_val network_matched_filter_snr_val : ℚ)
    (ifos : List IfoMeta) : InjectionMetaData :=
  { injection_parameters := if blind then .none else .dict parameters
    fixed_parameters := fixed_parameters
    waveform_kwargs := .dict waveform_arguments
    seed := if blind then .none else .int seed
    detectors := .dict (ifos.foldl
      (fun acc ifo => dictAssign acc ifo.name (detectorEntry blind ifo)) [])
    duration := .float duration
    sampling_frequency := .float sampling_frequency
    network_optimal_snr := if blind then .none else .float network_optimal_snr_val
    network_matched_filter_snr :=
      if blind then .none else .float network_matched_filter_snr_val }

/-- The column names of `INJECTION_METADATA_SCHEMA`, in order. -/
def schemaColumnNames : List String :=
  ["injection_parameters", "waveform_kwargs", "seed", "detectors", "duration",
   "sampling_frequency", "network_optimal_snr", "network_matched_filter_snr"]

/-- A decoded Arrow map as produced by `to_pylist`: a Python list of
(key, value) 2-tuples. -/
def mkMapPy (l : List (String × PyVal)) : PyVal :=
  .list (l.map fun kv => .pair kv.1 kv.2)

/-- The value of the last occurrence of a key in a sequence of (key, value)
pairs — the value that survives building or updating a Python dict from the
sequence. -/
def lastVal : List (String × PyVal) → String → Option PyVal
  | [], _ => Option.none
  | (k', v) :: rest, k =>
    match lastVal rest k with
    | Option.some w => Option.some w
    | Option.none => if k' = k then Option.some v else Option.none

/-- Left-biased choice on optional values. -/
def optOr : Option PyVal → Option PyVal → Option PyVal
  | Option.some v, _ => Option.some v
  | Option.none, o => o

/-- Example record for the round-trip claim: a fully populated, unblinded
`InjectionMetaData`. -/
def exampleRecord1 : InjectionMetaData :=
  { injection_parameters := .dict [("mass_1", .float 30)]
    fixed_parameters := .dict []
    waveform_kwargs := .dict [("waveform_approximant", .str "IMRPhenomD"),
                              ("reference_frequency", .float 50)]
    seed := .int 42
    detectors := .dict [("H1", .dict [("minimum_frequency", .float 20)])]
    duration := .float 4
    sampling_frequency := .float 2048 }

/-- Example record for the single-row equivalence claim. -/
def exampleRecord7 : InjectionMetaData :=
  { exampleRecord1 with seed := .int 43 }

/-- Example record whose `waveform_kwargs` holds one int, one float and one
string value. -/
def exampleRecord3 : InjectionMetaData :=
  { exampleRecord1 with
    waveform_kwargs := .dict [("a", .int 1), ("b", .float (5/2)), ("c", .str "x")] }

/-- Example record whose `waveform_kwargs` holds a value that is neither an
integer, a float nor text (a Python list). -/
def exampleRecord9 : InjectionMetaData :=
  { exampleRecord1 with
    waveform_kwargs := .dict [("a", .list [.int 1, .int 2])] }

/-- Minimal record used to witness the missing-column behavior. -/
def exampleRecordW : InjectionMetaData :=
  { injection_parameters := .none
    fixed_parameters := .none
    waveform_kwargs := .dict []
    seed := .none
    detectors := .dict []
    duration := .float 4
    sampling_frequency := .float 2048 }

/-- Record with an empty `detectors` mapping and an absent
`injection_parameters`, for the empty-map versus absent claim. -/
def exampleRecordD : InjectionMetaData :=
  { exampleRecordW with seed := .int 5 }

/-- A stored row (as another parquet writer could produce it, with a
`fixed_parameters` column as well) whose `waveform_kwargs` struct holds the
key `"a"` in two typed sub-maps at once. -/
def duplicateKeyRow : Row :=
  [("injection_parameters", .null),
   ("fixed_parameters", .null),
   ("waveform_kwargs", .struct [("ints", .map [("a", .int 1)]),
                                ("floats", .map [("a", .float (5/2))]),
                                ("strings", .map [])]),
   ("seed", .int 7),
   ("detectors", .map []),
   ("duration", .float 4),
   ("sampling_frequency", .float 2048),
   ("network_optimal_snr", .null),
   ("network_matched_filter_snr", .null)]

/-- A stored row (with a `fixed_parameters` column) whose stored
`injection_parameters` map is empty. -/
def emptyMapRow : Row :=
  [("injection_parameters", .map []),
   ("fixed_parameters", .null),
   ("waveform_kwargs", .struct [("ints", .map []), ("floats", .map []),
                                ("strings", .map [])]),
   ("seed", .int 8),
   ("detectors", .map []),
   ("duration", .float 4),
   ("sampling_frequency", .float 2048),
   ("network_optimal_snr", .null),
   ("network_matched_filter_snr", .null)]

/-- A concrete blinded record produced by the modelled `simulate_level_0`
iteration. -/
def blindedRecord : InjectionMetaData :=
  simulate_level_0_metadata true 1 4 2048 [("mass_1", .float 30)]
    [("waveform_approximant", .str "X")] (.dict []) 0 0
    [⟨"H1", 20, 1024, 10, 9⟩]

/-- The table `save_metadata` produces for `[exampleRecord1]`. -/
def savedTable1 : Table :=
  [[("injection_parameters", .map [("mass_1", .float 30)]),
    ("waveform_kwargs", .struct [("ints", .null), ("floats", .null), ("strings", .null)]),
    ("seed", .int 42),
    ("detectors", .map [("H1", .map [("minimum_frequency", .float 20)])]),
    ("duration", .float 4),
    ("sampling_frequency", .float 2048),
    ("network_optimal_snr", .null),
    ("network_matched_filter_snr", .null)]]

/-- The table `save_metadata` produces for `[exampleRecord7]`. -/
def savedTable7 : Table :=
  [[("injection_parameters", .map [("mass_1", .float 30)]),
    ("waveform_kwargs", .struct [("ints", .null), ("floats", .null), ("strings", .null)]),
    ("seed", .int 43),
    ("detectors", .map [("H1", .map [("minimum_frequency", .float 20)])]),
    ("duration", .float 4),
    ("sampling_frequency", .float 2048),
    ("network_optimal_snr", .null),
    ("network_matched_filter_snr", .null)]]

/-- The table `save_metadata` produces for `[exampleRecordW]`. -/
def savedTableW : Table :=
  [[("injection_parameters", .null),
    ("waveform_kwargs", .struct [("ints", .null), ("floats", .null), ("strings", .null)]),
    ("seed", .null),
    ("detectors", .map []),
    ("duration", .float 4),
    ("sampling_frequency", .float 2048),
    ("network_optimal_snr", .null),
    ("network_matched_filter_snr", .null)]]

/-- The table `save_metadata` produces for `[blindedRecord]`. -/
def savedTableB : Table :=
  [[("injection_parameters", .null),
    ("waveform_kwargs", .struct [("ints", .null), ("floats", .null), ("strings", .null)]),
    ("seed", .null),
    ("detectors", .map [("H1", .map [("minimum_frequency", .float 20),
                                     ("maximum_frequency", .float 1024),
                                     ("optimal_snr", .null),
                                     ("matched_filter_snr", .null)])]),
    ("duration", .float 4),
    ("sampling_frequency", .float 2048),
    ("network_optimal_snr", .null),
    ("network_matched_filter_snr", .null)]]

/-- A one-row stored table used to exercise the range check of
`read_single_metadata_raw` on concrete indices. -/
def oneRowTable : Table :=
  [[("duration", .float 4)]]

/-- Inversion for `exceptMap`: a successful run has one output per input, in
order, each produced by a successful application of the function. -/
theorem exceptMap_ok_elim {α β : Type _} {f : α → Except String β} :
    ∀ {l : List α} {out : List β}, exceptMap f l = .ok out →
      out.length = l.length ∧ ∀ y ∈ out, ∃ x ∈ l, f x = .ok y := by
  intro l
  induction l with
  | nil =>
    intro out h
    simp only [exceptMap] at h
    cases h
    simp
  | cons x xs ih =>
    intro out h
    simp only [exceptMap] at h
    cases hfx : f x with
    | error e => rw [hfx] at h; simp at h
    | ok y =>
      rw [hfx] at h
      cases hxs : exceptMap f xs with
      | error e => rw [hxs] at h; simp at h
      | ok ys =>
        rw [hxs] at h
        cases h
        obtain ⟨hlen, hmem⟩ := ih hxs
        refine ⟨by simp [hlen], ?_⟩
        intro z hz
        rcases hz with _ | hz
        · exact ⟨x, by simp, hfx⟩
        · obtain ⟨w, hw, hfw⟩ := hmem z (by assumption)
          exact ⟨w, by simp [hw], hfw⟩

/-- An `exceptMap` over a list whose head fails propagates the head's
error. -/
theorem exceptMap_cons_error {α β : Type _} {f : α → Except String β} {x : α}
    {xs : List α} {e : String} (h : f x = .error e) :
    exceptMap f (x :: xs) = .error e := by
  simp only [exceptMap, h]

/-- The column names of a row built by `fromPyRow` are exactly the schema
field names, in order. -/
theorem fromPyRow_keys :
    ∀ {fields : List (String × AType × Bool)} {d : List (String × PyVal)} {r : Row},
      fromPyRow fields d = .ok r → r.map Prod.fst = fields.map (fun f => f.1) := by
  intro fields
  induction fields with
  | nil =>
    intro d r h
    simp only [fromPyRow] at h
    cases h
    simp
  | cons f rest ih =>
    intro d r h
    obtain ⟨name, ty, nb⟩ := f
    simp only [fromPyRow] at h
    cases hc : convert ty ((pyLookup d name).getD .none) with
    | error e => rw [hc] at h; simp at h
    | ok v =>
      rw [hc] at h
      cases hr : fromPyRow rest d with
      | error e => rw [hr] at h; simp at h
      | ok rr =>
        rw [hr] at h
        cases h
        simp [ih hr]

/-- Inversion for `fromPyRow`: every schema field occurs in the built row
with the converted value of its lookup in the row dict. -/
theorem fromPyRow_mem :
    ∀ {fields : List (String × AType × Bool)} {d : List (String × PyVal)} {r : Row},
      fromPyRow fields d = .ok r →
      ∀ nf ∈ fields, ∃ av, (nf.1, av) ∈ r ∧
        convert nf.2.1 ((pyLookup d nf.1).getD .none) = .ok av := by
  intro fields
  induction fields with
  | nil => intro d r h nf hnf; simp at hnf
  | cons f rest ih =>
    intro d r h nf hnf
    obtain ⟨name, ty, nb⟩ := f
    simp only [fromPyRow] at h
    cases hc : convert ty ((pyLookup d name).getD .none) with
    | error e => rw [hc] at h; simp at h
    | ok v =>
      rw [hc] at h
      cases hr : fromPyRow rest d with
      | error e => rw [hr] at h; simp at h
      | ok rr =>
        rw [hr] at h
        cases h
        rcases hnf with _ | hnf
        · exact ⟨v, by simp, hc⟩
        · obtain ⟨av, hmem, hconv⟩ := ih hr nf (by assumption)
          exact ⟨av, by simp [hmem], hconv⟩

/-- Looking a key up in a parsed dict gives the parsed value of the
original lookup (positions are preserved by `parse_metadata_dict`). -/
theorem pyLookup_parse_metadata_dict (l : List (String × PyVal)) (k : String) :
    pyLookup (parse_metadata_dict l) k = (pyLookup l k).map (parseField k) := by
  induction l with
  | nil => simp [parse_metadata_dict, pyLookup]
  | cons kv rest ih =>
    obtain ⟨k', v⟩ := kv
    by_cases h : k' = k
    · subst h
      simp [parse_metadata_dict, pyLookup]
    · simp only [parse_metadata_dict, List.map_cons, pyLookup, beq_iff_eq, h,
        if_false] at ih ⊢
      exact ih

/-- Looking up a column of a row rendered by `to_pylist` gives the rendered
value, provided the row's column names are distinct. -/
theorem pyLookup_toPyRow_of_mem :
    ∀ {r : Row} {name : String} {av : AVal}, (r.map Prod.fst).Nodup →
      (name, av) ∈ r → pyLookup (toPyRow r) name = Option.some (toPy av) := by
  intro r
  induction r with
  | nil => intro name av _ hm; simp at hm
  | cons kv rest ih =>
    intro name av hnd hm
    obtain ⟨k, v⟩ := kv
    simp only [List.map_cons, List.nodup_cons] at hnd
    cases hm with
    | head => simp [toPyRow, pyLookup]
    | tail _ hm =>
      have hk : k ≠ name := by
        intro he
        subst he
        exact hnd.1 (by simpa using List.mem_map_of_mem Prod.fst hm)
      simpa [toPyRow, pyLookup, hk] using ih hnd.2 hm

/-- A keyword dict holding exactly the stored schema columns makes
`InjectionMetaData(**kwargs)` fail: `fixed_parameters` is a required field
of the dataclass but not a schema column. -/
theorem mk_fails_on_schema_keys {kwargs : List (String × PyVal)}
    (h : kwargs.map Prod.fst = schemaColumnNames) :
    mkInjectionMetaData kwargs = .error (missingArgsMsg ["fixed_parameters"]) := by
  simp only [mkInjectionMetaData, h]
  rfl

/-- Looking a key up after a Python dict assignment: the assigned key maps to
the new value, all other keys are unaffected. -/
theorem pyLookup_dictAssign (d : List (String × PyVal)) (k0 k : String) (v0 : PyVal) :
    pyLookup (dictAssign d k0 v0) k
      = if k0 = k then Option.some v0 else pyLookup d k := by
  induction d with
  | nil => simp [dictAssign, pyLookup]
  | cons kv rest ih =>
    obtain ⟨k', v'⟩ := kv
    by_cases h0 : k' = k0
    · subst h0
      by_cases h1 : k' = k
      · subst h1; simp [dictAssign, pyLookup]
      · simp [dictAssign, pyLookup, h1]
    · by_cases h1 : k' = k
      · subst h1
        simp [dictAssign, pyLookup, h0, Ne.symm h0]
      · simp [dictAssign, pyLookup, h0, h1, ih]

/-- Looking a key up after a sequence of Python dict assignments: the last
assignment of the key wins, and a key never assigned keeps its value in the
initial dict. -/
theorem pyLookup_foldl_assign (l : List (String × PyVal)) (acc : List (String × PyVal))
    (k : String) :
    pyLookup (l.foldl (fun a kv => dictAssign a kv.1 kv.2) acc) k
      = optOr (lastVal l k) (pyLookup acc k) := by
  induction l generalizing acc with
  | nil => simp [lastVal, optOr]
  | cons kv rest ih =>
    obtain ⟨k1, v1⟩ := kv
    simp only [List.foldl_cons, ih, pyLookup_dictAssign, lastVal]
    cases lastVal rest k with
    | none => by_cases h : k1 = k <;> simp [optOr, h]
    | some w => simp [optOr]

/-- The 2-tuples of a rendered map are exactly its entries. -/
theorem pairsOf_mkMapPy (l : List (String × PyVal)) :
    pairsOf (l.map fun kv => PyVal.pair kv.1 kv.2) = l := by
  induction l with
  | nil => simp [pairsOf]
  | cons kv rest ih => simp_all [pairsOf]

/-- The guarded update step of the `waveform_kwargs` reconstruction loop,
applied to a rendered map: skipping a falsy (empty) map equals updating with
it, so the step is an unconditional sequence of assignments. -/
theorem ifTruthyUpdate (acc : List (String × PyVal)) (l : List (String × PyVal)) :
    (if pyTruthy (mkMapPy l) then pyUpdate acc (mkMapPy l) else acc)
      = l.foldl (fun a kv => dictAssign a kv.1 kv.2) acc := by
  cases l with
  | nil => simp [mkMapPy, pyTruthy]
  | cons kv rest =>
    rw [if_pos (by simp [mkMapPy, pyTruthy])]
    simp only [mkMapPy, pyUpdate, pairsOf_mkMapPy]

/-- The `waveform_kwargs` branch of `_parse_metadata_dict` on a decoded
struct of three rendered sub-maps is the sequence of dict updates with the
`ints`, `floats` and `strings` entries, in that order, starting from the
empty dict. -/
theorem parseField_wk (i f s : List (String × PyVal)) :
    parseField "waveform_kwargs"
        (.dict [("ints", mkMapPy i), ("floats", mkMapPy f), ("strings", mkMapPy s)])
      = .dict (s.foldl (fun a kv => dictAssign a kv.1 kv.2)
          (f.foldl (fun a kv => dictAssign a kv.1 kv.2)
            (i.foldl (fun a kv => dictAssign a kv.1 kv.2) []))) := by
  simp [parseField, pyLookup, wkCategories, ifTruthyUpdate]

/-- Dropping the right operand of a left-biased choice when it is `none`. -/
theorem optOr_none_right (o : Option PyVal) : optOr o Option.none = o := by
  cases o <;> simp [optOr]

/-- Membership after a Python dict assignment: every entry either carries the
assigned value or was already present. -/
theorem mem_dictAssign :
    ∀ {d : List (String × PyVal)} {k0 : String} {v0 : PyVal} {kv : String × PyVal},
      kv ∈ dictAssign d k0 v0 → kv.2 = v0 ∨ kv ∈ d := by
  intro d
  induction d with
  | nil =>
    intro k0 v0 kv h
    simp [dictAssign] at h
    subst h
    simp
  | cons kv' rest ih =>
    intro k0 v0 kv h
    obtain ⟨k', v'⟩ := kv'
    by_cases he : k' = k0
    · subst he
      simp only [dictAssign, beq_self_eq_true, if_true] at h
      rcases List.mem_cons.mp h with h | h
      · subst h; simp
      · right; simp [h]
    · simp only [dictAssign, beq_iff_eq, he, if_false] at h
      rcases List.mem_cons.mp h with h | h
      · subst h; right; simp
      · rcases ih h with h | h
        · left; exact h
        · right; simp [h]

/-- Every value in a dict built by a sequence of assignments satisfies a
predicate if the initial values and all assigned values do. -/
theorem foldl_assign_pred {α : Type _} (P : PyVal → Prop) (g : α → String) (h : α → PyVal) :
    ∀ (l : List α) (acc : List (String × PyVal)),
      (∀ kv ∈ acc, P kv.2) → (∀ x ∈ l, P (h x)) →
      ∀ kv ∈ l.foldl (fun a x => dictAssign a (g x) (h x)) acc, P kv.2 := by
  intro l
  induction l with
  | nil => intro acc hacc _ kv hkv; exact hacc kv hkv
  | cons x xs ih =>
    intro acc hacc hl kv hkv
    simp only [List.foldl_cons] at hkv
    refine ih (dictAssign acc (g x) (h x)) ?_ (fun y hy => hl y (by simp [hy])) kv hkv
    intro kv' hkv'
    rcases mem_dictAssign hkv' with h' | h'
    · rw [h']; exact hl x (by simp)
    · exact hacc kv' h'


/-- Converting the `detectors` dict of a blinded record: every inner dict of
the shape built by the blinded loop converts successfully, with both SNR
entries stored as nulls. -/
theorem convert_blind_detectors :
    ∀ (D : List (String × PyVal)),
      (∀ kv ∈ D, ∃ a b : ℚ, kv.2 = PyVal.dict
        [("minimum_frequency", .float a), ("maximum_frequency", .float b),
         ("optimal_snr", .none), ("matched_filter_snr", .none)]) →
      ∃ E, convertEntriesD (fun w => convert (.map .float64) w) D = .ok E ∧
        ∀ kv ∈ E, ∃ a b : ℚ, kv.2 = AVal.map
          [("minimum_frequency", .float a), ("maximum_frequency", .float b),
           ("optimal_snr", .null), ("matched_filter_snr", .null)] := by
  intro D
  induction D with
  | nil => exact fun _ => ⟨[], rfl, by simp⟩
  | cons kv rest ih =>
    intro hD
    obtain ⟨k, v⟩ := kv
    obtain ⟨a, b, hv⟩ := hD (k, v) (by simp)
    obtain ⟨E, hE, hEp⟩ := ih (fun kv h => hD kv (by simp [h]))
    simp only at hv
    subst hv
    refine ⟨(k, AVal.map
        [("minimum_frequency", .float a), ("maximum_frequency", .float b),
         ("optimal_snr", .null), ("matched_filter_snr", .null)]) :: E, ?_, ?_⟩
    · have hc : convert (.map .float64) (PyVal.dict
            [("minimum_frequency", .float a), ("maximum_frequency", .float b),
             ("optimal_snr", .none), ("matched_filter_snr", .none)])
          = .ok (.map
            [("minimum_frequency", .float a), ("maximum_frequency", .float b),
             ("optimal_snr", .null), ("matched_filter_snr", .null)]) := rfl
      simp only [convertEntriesD, hc, hE]
    · intro kv hkv
      rcases List.mem_cons.mp hkv with h | h
      · subst h; exact ⟨a, b, rfl⟩
      · exact hEp kv h

/-- Rendering the converted blinded `detectors` entries with `to_pylist`:
each entry becomes a 2-tuple of the detector name and the list of inner
2-tuples, the SNR entries rendered as `None`. -/
theorem toPyPairs_blind_detectors :
    ∀ (E : List (String × AVal)),
      (∀ kv ∈ E, ∃ a b : ℚ, kv.2 = AVal.map
        [("minimum_frequency", .float a), ("maximum_frequency", .float b),
         ("optimal_snr", .null), ("matched_filter_snr", .null)]) →
      ∀ x ∈ toPyPairs E, ∃ (k : String) (a b : ℚ),
        x = PyVal.pair k (.list
          [.pair "minimum_frequency" (.float a), .pair "maximum_frequency" (.float b),
           .pair "optimal_snr" .none, .pair "matched_filter_snr" .none]) := by
  intro E
  induction E with
  | nil => intro _ x hx; simp [toPyPairs] at hx
  | cons kv rest ih =>
    intro hE x hx
    obtain ⟨k, v⟩ := kv
    obtain ⟨a, b, hv⟩ := hE (k, v) (by simp)
    simp only at hv
    subst hv
    simp only [toPyPairs] at hx
    rcases List.mem_cons.mp hx with h | h
    · subst h
      exact ⟨k, a, b, rfl⟩
    · exact ih (fun kv h => hE kv (by simp [h])) x h

/-- Parsing a rendered blinded `detectors` list: the decoded mapping holds,
for each detector, an inner dict whose SNR entries are `None`. -/
theorem parse_blind_detectors (xs : List PyVal)
    (hxs : ∀ x ∈ xs, ∃ (k : String) (a b : ℚ),
      x = PyVal.pair k (.list
        [.pair "minimum_frequency" (.float a), .pair "maximum_frequency" (.float b),
         .pair "optimal_snr" .none, .pair "matched_filter_snr" .none])) :
    ∃ dets, parseField "detectors" (.list xs) = .dict dets ∧
      ∀ kv ∈ dets, ∃ inner, kv.2 = PyVal.dict inner ∧
        pyLookup inner "optimal_snr" = Option.some .none ∧
        pyLookup inner "matched_filter_snr" = Option.some .none := by
  refine ⟨_, rfl, ?_⟩
  apply foldl_assign_pred
    (fun v => ∃ inner, v = PyVal.dict inner ∧
      pyLookup inner "optimal_snr" = Option.some .none ∧
      pyLookup inner "matched_filter_snr" = Option.some .none)
    Prod.fst (fun kv => pyDictCast kv.2) (pairsOf xs) []
  · simp
  · intro x hx
    obtain ⟨y, hy, hfy⟩ := List.mem_filterMap.mp hx
    obtain ⟨k, a, b, hsh⟩ := hxs y hy
    subst hsh
    simp only [Option.some.injEq] at hfy
    subst hfy
    exact ⟨_, rfl, rfl, rfl⟩

/-- Keys are preserved, position by position, by `_parse_metadata_dict`. -/
theorem parse_metadata_dict_keys (l : List (String × PyVal)) :
    (parse_metadata_dict l).map Prod.fst = l.map Prod.fst := by
  simp [parse_metadata_dict]

/-- Keys are preserved, position by position, by the `to_pylist` rendering of
a row. -/
theorem toPyRow_keys (r : Row) : (toPyRow r).map Prod.fst = r.map Prod.fst := by
  simp [toPyRow]

/-- Claim C1: the spec and the repository's own round-trip test demand
`read_metadata (save_metadata records) = records`; on the code this fails for
every non-empty input.  At the concrete record `exampleRecord1`,
`save_metadata` writes a table without a `fixed_parameters` column (and with
the `waveform_kwargs` sub-maps null), so `read_metadata` raises the
missing-argument TypeError instead of returning the record; only the empty
sequence round-trips. -/
theorem read_metadata_after_save_errors_on_fixed_parameters :
    save_metadata [exampleRecord1] = .ok savedTable1 ∧
    read_metadata savedTable1 = .error (missingArgsMsg ["fixed_parameters"]) ∧
    save_metadata [] = .ok [] ∧ read_metadata [] = .ok [] :=
  ⟨rfl, rfl, rfl, rfl⟩

/-- Claim C3: the claim says `save_metadata` routes each `waveform_kwargs`
key into the typed sub-map matching its value's runtime type, storing empty
sub-maps rather than missing fields.  On the code no routing happens: for a
record whose kwargs hold an int, a float and a string, all three stored
sub-maps are null and the keys are dropped, so the decode side reconstructs
the empty dict. -/
theorem save_metadata_does_not_split_waveform_kwargs :
    ∃ row, save_metadata [exampleRecord3] = .ok [row] ∧
      row = [("injection_parameters", .map [("mass_1", .float 30)]),
             ("waveform_kwargs",
                .struct [("ints", .null), ("floats", .null), ("strings", .null)]),
             ("seed", .int 42),
             ("detectors", .map [("H1", .map [("minimum_frequency", .float 20)])]),
             ("duration", .float 4),
             ("sampling_frequency", .float 2048),
             ("network_optimal_snr", .null),
             ("network_matched_filter_snr", .null)] ∧
      pyLookup (parse_metadata_dict (toPyRow row)) "waveform_kwargs"
        = Option.some (.dict []) :=
  ⟨_, rfl, rfl, rfl⟩

/-- Claim C7: single-row equivalence
`read_single_metadata (save_metadata records) i = records[i]` fails on the
code: at the concrete record `exampleRecord7` both `read_single_metadata` at
the valid index 0 and `read_metadata` raise the missing-argument TypeError
caused by the dropped `fixed_parameters` column. -/
theorem read_single_metadata_after_save_errors :
    save_metadata [exampleRecord7] = .ok savedTable7 ∧
    read_single_metadata savedTable7 0 = .error (missingArgsMsg ["fixed_parameters"]) ∧
    read_metadata savedTable7 = .error (missingArgsMsg ["fixed_parameters"]) :=
  ⟨rfl, rfl, rfl⟩

/-- Claim C9: the claim says `save_metadata` fails with a schema error when a
`waveform_kwargs` value is neither integer, float nor text.  On the code no
error is raised: the kwargs values are never inspected (no routing into the
typed sub-maps happens), so a record holding a Python list value is written
successfully with all three sub-maps null. -/
theorem save_metadata_accepts_non_schema_kwarg_value :
    save_metadata [exampleRecord9]
      = .ok [[("injection_parameters", .map [("mass_1", .float 30)]),
              ("waveform_kwargs",
                 .struct [("ints", .null), ("floats", .null), ("strings", .null)]),
              ("seed", .int 42),
              ("detectors", .map [("H1", .map [("minimum_frequency", .float 20)])]),
              ("duration", .float 4),
              ("sampling_frequency", .float 2048),
              ("network_optimal_snr", .null),
              ("network_matched_filter_snr", .null)]] :=
  rfl

/-- Claim C4 counterexample: a stored row whose `waveform_kwargs` struct
holds the key `"a"` in both the `ints` and the `floats` sub-maps decodes
without any error — the decode path silently keeps the `floats` value
(`5/2`), instead of raising the CorruptData error the claim requires. -/
theorem parse_duplicate_key_merges_silently :
    read_metadata [duplicateKeyRow]
      = .ok [{ injection_parameters := .none
               fixed_parameters := .none
               waveform_kwargs := .dict [("a", .float (5/2))]
               seed := .int 7
               detectors := .dict []
               duration := .float 4
               sampling_frequency := .float 2048 }] :=
  rfl

/-- Claim C4 (amended): when the same key occurs in more than one typed
sub-map, `_parse_metadata_dict` silently merges by updating in the order
`ints`, `floats`, `strings`, so the value from the latest sub-map holding the
key wins; no error is raised. -/
theorem parse_duplicate_key_precedence (k : String) (a b c : PyVal) :
    parse_metadata_dict [("waveform_kwargs",
        .dict [("ints", mkMapPy [(k, a)]), ("floats", mkMapPy [(k, b)]),
               ("strings", mkMapPy [(k, c)])])]
      = [("waveform_kwargs", .dict [(k, c)])] ∧
    parse_metadata_dict [("waveform_kwargs",
        .dict [("ints", mkMapPy [(k, a)]), ("floats", mkMapPy [(k, b)]),
               ("strings", mkMapPy [])])]
      = [("waveform_kwargs", .dict [(k, b)])] := by
  constructor <;> simp [parse_metadata_dict, parseField_wk, dictAssign]

/-- Claim C5 counterexample: a stored row whose `injection_parameters` map is
empty decodes to an absent (`None`) field, not to the empty mapping the claim
requires: `dict(value) if value else None` treats the empty decoded map as
falsy. -/
theorem empty_injection_parameters_map_decodes_to_none :
    read_metadata [emptyMapRow]
      = .ok [{ injection_parameters := .none
               fixed_parameters := .none
               waveform_kwargs := .dict []
               seed := .int 8
               detectors := .dict []
               duration := .float 4
               sampling_frequency := .float 2048 }] :=
  rfl

/-- Claim C5 (amended): an empty stored `detectors` map decodes to the empty
mapping while an empty stored `injection_parameters` map decodes to `None`
(absent), exactly like a stored null; a non-empty stored
`injection_parameters` map decodes to the corresponding dict; and a record
with `detectors = \x7b\x7d` and `injection_parameters = None` keeps exactly those
values through encode plus the decode parse step (full reconstruction being
precluded by the missing `fixed_parameters` column). -/
theorem empty_map_and_absent_decoding :
    parseField "detectors" (.list []) = .dict [] ∧
    parseField "injection_parameters" PyVal.none = .none ∧
    parseField "injection_parameters" (.list []) = .none ∧
    (∀ p ps, parseField "injection_parameters" (mkMapPy (p :: ps))
        = .dict (dictOfPairs (p :: ps))) ∧
    (∃ t d, save_metadata [exampleRecordD] = .ok t
      ∧ (toPylist t).map parse_metadata_dict = [d]
      ∧ pyLookup d "detectors" = Option.some (.dict [])
      ∧ pyLookup d "injection_parameters" = Option.some .none) := by
  refine ⟨rfl, rfl, rfl, ?_, ⟨_, _, rfl, rfl, rfl, rfl⟩⟩
  intro p ps
  have ht : pyTruthy (mkMapPy (p :: ps)) = true := by simp [mkMapPy, pyTruthy]
  have hc : pyDictCast (mkMapPy (p :: ps)) = .dict (dictOfPairs (p :: ps)) := by
    simp only [mkMapPy, pyDictCast, pairsOf_mkMapPy]
  simp [parseField, ht, hc]

/-- Claim C6 (amended): `read_single_metadata_raw` succeeds exactly on
indices in `[0, len(table))` and otherwise raises the IndexError reporting
both the offending index and the row count; `read_single_metadata` performs
the same range check and propagates the same error out of range (in range it
can still fail while constructing the record, as on every
`save_metadata`-produced table). -/
theorem read_single_metadata_raw_range_check (t : Table) (i : ℤ) :
    ((0 ≤ i ∧ i < (t.length : ℤ)) → ∃ r, read_single_metadata_raw t i = .ok r) ∧
    (¬(0 ≤ i ∧ i < (t.length : ℤ)) →
      read_single_metadata_raw t i
        = .error (s!"Row index {i} out of range [0, {t.length})") ∧
      read_single_metadata t i
        = .error (s!"Row index {i} out of range [0, {t.length})")) := by
  constructor
  · intro h
    simp only [read_single_metadata_raw]
    rw [dif_neg (by omega)]
    exact ⟨_, rfl⟩
  · intro h
    have he : read_single_metadata_raw t i
        = .error (s!"Row index {i} out of range [0, {t.length})") := by
      simp only [read_single_metadata_raw]
      rw [dif_pos (by omega)]
    refine ⟨he, ?_⟩
    simp only [read_single_metadata, he]

/-- Claim C6 counterexample: on the table `save_metadata` writes for one
record, the in-range index 0 does not make `read_single_metadata` succeed —
the missing `fixed_parameters` column makes the record construction raise —
so "succeeds exactly when `0 <= index < N`" fails at the object level. -/
theorem read_single_metadata_in_range_can_fail :
    (0 : ℤ) ≤ 0 ∧ (0 : ℤ) < (savedTableW.length : ℤ) ∧
    read_single_metadata savedTableW 0 = .error (missingArgsMsg ["fixed_parameters"]) :=
  ⟨le_refl 0, by decide, rfl⟩

/-- Witness for C6 at a one-row table: index 0 succeeds, index -1 fails with
the message naming the index and the bound. -/
theorem read_single_metadata_raw_range_check_witness :
    (∃ r, read_single_metadata_raw oneRowTable 0 = .ok r) ∧
    read_single_metadata_raw oneRowTable (-1)
      = .error "Row index -1 out of range [0, 1)" ∧
    read_single_metadata oneRowTable 1
      = .error "Row index 1 out of range [0, 1)" :=
  ⟨(read_single_metadata_raw_range_check oneRowTable 0).1 (by decide),
   ((read_single_metadata_raw_range_check oneRowTable (-1)).2 (by decide)).1,
   ((read_single_metadata_raw_range_check oneRowTable 1).2 (by decide)).2⟩

/-- Claim C2: for every list of records, a table written by `save_metadata`
holds exactly the eight schema columns — no `fixed_parameters` column — and
consequently both `read_metadata` (on a non-empty table) and
`read_single_metadata` (at any valid index) raise the missing-argument
TypeError when constructing `InjectionMetaData`, whose `fixed_parameters`
field is required and has no default. -/
theorem save_metadata_drops_fixed_parameters (ms : List InjectionMetaData) (t : Table)
    (h : save_metadata ms = .ok t) :
    (∀ row ∈ t, row.map Prod.fst = schemaColumnNames) ∧
    "fixed_parameters" ∉ schemaColumnNames ∧
    (ms ≠ [] → read_metadata t = .error (missingArgsMsg ["fixed_parameters"])) ∧
    (∀ i : ℤ, 0 ≤ i → i < (t.length : ℤ) →
      read_single_metadata t i = .error (missingArgsMsg ["fixed_parameters"])) := by
  simp only [save_metadata, fromPylist] at h
  obtain ⟨hlen, hmem⟩ := exceptMap_ok_elim h
  have hrows : ∀ row ∈ t, row.map Prod.fst = schemaColumnNames := by
    intro row hrow
    obtain ⟨d, _, hd⟩ := hmem row hrow
    exact (fromPyRow_keys hd).trans rfl
  have hmk : ∀ row ∈ t,
      mkInjectionMetaData (parse_metadata_dict (toPyRow row))
        = .error (missingArgsMsg ["fixed_parameters"]) := by
    intro row hrow
    apply mk_fails_on_schema_keys
    rw [parse_metadata_dict_keys, toPyRow_keys]
    exact hrows row hrow
  refine ⟨hrows, by decide, ?_, ?_⟩
  · intro hne
    cases t with
    | nil =>
      exfalso
      apply hne
      have : ms.map asdict = [] := List.length_eq_zero.mp (by simpa using hlen.symm)
      simpa using this
    | cons row rest =>
      simp only [read_metadata, toPylist, List.map_cons]
      exact exceptMap_cons_error (hmk row (by simp))
  · intro i h0 hlt
    simp only [read_single_metadata, read_single_metadata_raw]
    rw [dif_neg (by omega)]
    exact hmk _ (List.get_mem t _ _)

/-- Witness for C2 at the record `exampleRecordW`: its saved table makes both
readers fail with the missing `fixed_parameters` TypeError. -/
theorem save_metadata_drops_fixed_parameters_witness :
    read_metadata savedTableW = .error (missingArgsMsg ["fixed_parameters"]) ∧
    read_single_metadata savedTableW 0 = .error (missingArgsMsg ["fixed_parameters"]) := by
  have h := save_metadata_drops_fixed_parameters [exampleRecordW] savedTableW rfl
  exact ⟨h.2.2.1 (by simp), h.2.2.2 0 (by decide) (by decide)⟩

/-- Claim C10: the `waveform_kwargs` reconstruction of `_parse_metadata_dict`
merges the decoded sub-maps by updating one dict in the fixed order `ints`,
`floats`, `strings`, so for any key the merged value is the last value stored
for it in `strings`, else in `floats`, else in `ints`; no error is raised for
keys occurring in several sub-maps. -/
theorem waveform_kwargs_merge_precedence (i f s : List (String × PyVal)) :
    ∃ d, parse_metadata_dict [("waveform_kwargs",
        .dict [("ints", mkMapPy i), ("floats", mkMapPy f), ("strings", mkMapPy s)])]
      = [("waveform_kwargs", .dict d)] ∧
      ∀ k, pyLookup d k = optOr (lastVal s k) (optOr (lastVal f k) (lastVal i k)) := by
  refine ⟨s.foldl (fun a kv => dictAssign a kv.1 kv.2)
      (f.foldl (fun a kv => dictAssign a kv.1 kv.2)
        (i.foldl (fun a kv => dictAssign a kv.1 kv.2) [])), ?_, ?_⟩
  · simp [parse_metadata_dict, parseField_wk]
  · intro k
    rw [pyLookup_foldl_assign, pyLookup_foldl_assign, pyLookup_foldl_assign]
    simp [pyLookup, optOr_none_right]

/-- Claim C8 counterexample: a blinded record cannot complete "a round-trip
through the codec" — already at one concrete blinded record, `read_metadata`
on the saved table raises the missing `fixed_parameters` TypeError, so the
claimed after-round-trip state is never reached. -/
theorem blinded_roundtrip_read_errors :
    save_metadata [blindedRecord] = .ok savedTableB ∧
    read_metadata savedTableB = .error (missingArgsMsg ["fixed_parameters"]) :=
  ⟨rfl, rfl⟩

/-- Claim C8 (amended): for every record built by the `simulate_level_0`
iteration with blinding active, `injection_parameters`, `seed`,
`network_optimal_snr` and `network_matched_filter_snr` are absent and both
SNR entries of every per-detector sub-map are `None`; with blinding inactive
the same single flag makes all of them present; and through encode plus the
decode parse step (`to_pylist` and `_parse_metadata_dict`) of any table
`save_metadata` writes for the blinded record, all of these fields are still
`None` — full `InjectionMetaData` reconstruction alone fails, for the
unrelated missing `fixed_parameters` column. -/
theorem blinding_consistency (z : ℤ) (du sf no nm : ℚ)
    (params wk : List (String × PyVal)) (fp : PyVal) (ifos : List IfoMeta) :
    ((simulate_level_0_metadata true z du sf params wk fp no nm ifos).injection_parameters
        = .none
      ∧ (simulate_level_0_metadata true z du sf params wk fp no nm ifos).seed = .none
      ∧ (simulate_level_0_metadata true z du sf params wk fp no nm ifos).network_optimal_snr
        = .none
      ∧ (simulate_level_0_metadata true z du sf params wk fp no nm
          ifos).network_matched_filter_snr = .none
      ∧ ∃ D, (simulate_level_0_metadata true z du sf params wk fp no nm ifos).detectors
            = .dict D
          ∧ ∀ kv ∈ D, ∃ inner, kv.2 = PyVal.dict inner
              ∧ pyLookup inner "optimal_snr" = Option.some .none
              ∧ pyLookup inner "matched_filter_snr" = Option.some .none) ∧
    ((simulate_level_0_metadata false z du sf params wk fp no nm ifos).injection_parameters
        = .dict params
      ∧ (simulate_level_0_metadata false z du sf params wk fp no nm ifos).seed = .int z
      ∧ (simulate_level_0_metadata false z du sf params wk fp no nm ifos).network_optimal_snr
        = .float no
      ∧ (simulate_level_0_metadata false z du sf params wk fp no nm
          ifos).network_matched_filter_snr = .float nm
      ∧ ∃ D, (simulate_level_0_metadata false z du sf params wk fp no nm ifos).detectors
            = .dict D
          ∧ ∀ kv ∈ D, ∃ inner, kv.2 = PyVal.dict inner
              ∧ (∃ q : ℚ, pyLookup inner "optimal_snr" = Option.some (.float q))
              ∧ (∃ q : ℚ, pyLookup inner "matched_filter_snr" = Option.some (.float q))) ∧
    (∀ t, save_metadata [simulate_level_0_metadata true z du sf params wk fp no nm ifos]
        = .ok t →
      ∃ d, (toPylist t).map parse_metadata_dict = [d]
        ∧ pyLookup d "injection_parameters" = Option.some .none
        ∧ pyLookup d "seed" = Option.some .none
        ∧ pyLookup d "network_optimal_snr" = Option.some .none
        ∧ pyLookup d "network_matched_filter_snr" = Option.some .none
        ∧ ∃ dets, pyLookup d "detectors" = Option.some (.dict dets)
            ∧ ∀ kv ∈ dets, ∃ inner, kv.2 = PyVal.dict inner
                ∧ pyLookup inner "optimal_snr" = Option.some .none
                ∧ pyLookup inner "matched_filter_snr" = Option.some .none) := by
  have hD : ∀ kv ∈ ifos.foldl
      (fun acc ifo => dictAssign acc ifo.name (detectorEntry true ifo)) [],
      ∃ a b : ℚ, kv.2 = PyVal.dict
        [("minimum_frequency", .float a), ("maximum_frequency", .float b),
         ("optimal_snr", .none), ("matched_filter_snr", .none)] := by
    apply foldl_assign_pred
      (fun v => ∃ a b : ℚ, v = PyVal.dict
        [("minimum_frequency", .float a), ("maximum_frequency", .float b),
         ("optimal_snr", .none), ("matched_filter_snr", .none)])
      IfoMeta.name (detectorEntry true) ifos []
    · simp
    · exact fun x _ => ⟨x.minimum_frequency, x.maximum_frequency, rfl⟩
  refine ⟨⟨rfl, rfl, rfl, rfl, ⟨_, rfl, ?_⟩⟩, ⟨rfl, rfl, rfl, rfl, ⟨_, rfl, ?_⟩⟩, ?_⟩
  · intro kv hkv
    obtain ⟨a, b, hsh⟩ := hD kv hkv
    exact ⟨_, hsh, rfl, rfl⟩
  · apply foldl_assign_pred
      (fun v => ∃ inner, v = PyVal.dict inner
        ∧ (∃ q : ℚ, pyLookup inner "optimal_snr" = Option.some (.float q))
        ∧ (∃ q : ℚ, pyLookup inner "matched_filter_snr" = Option.some (.float q)))
      IfoMeta.name (detectorEntry false) ifos []
    · simp
    · exact fun x _ => ⟨_, rfl, ⟨x.optimal_SNR, rfl⟩, ⟨x.matched_filter_SNR_real, rfl⟩⟩
  · intro t h
    simp only [save_metadata, fromPylist, List.map_cons, List.map_nil, exceptMap] at h
    cases hr : fromPyRow INJECTION_METADATA_SCHEMA
        (asdict (simulate_level_0_metadata true z du sf params wk fp no nm ifos)) with
    | error e => rw [hr] at h; simp at h
    | ok row =>
      rw [hr] at h
      simp only [Except.ok.injEq] at h
      subst h
      have hkeys : row.map Prod.fst = schemaColumnNames := (fromPyRow_keys hr).trans rfl
      have hnd : (row.map Prod.fst).Nodup := by rw [hkeys]; decide
      obtain ⟨avI, hmemI, hconvI⟩ := fromPyRow_mem hr
        ("injection_parameters", .map .float64, true) (by decide)
      obtain ⟨avS, hmemS, hconvS⟩ := fromPyRow_mem hr ("seed", .int64, true) (by decide)
      obtain ⟨avO, hmemO, hconvO⟩ := fromPyRow_mem hr
        ("network_optimal_snr", .float64, true) (by decide)
      obtain ⟨avM, hmemM, hconvM⟩ := fromPyRow_mem hr
        ("network_matched_filter_snr", .float64, true) (by decide)
      obtain ⟨avD, hmemD, hconvD⟩ := fromPyRow_mem hr
        ("detectors", .map (.map .float64), false) (by decide)
      obtain rfl : avI = .null :=
        (Except.ok.inj (hconvI : (Except.ok AVal.null : Except String AVal) = .ok avI)).symm
      obtain rfl : avS = .null :=
        (Except.ok.inj (hconvS : (Except.ok AVal.null : Except String AVal) = .ok avS)).symm
      obtain rfl : avO = .null :=
        (Except.ok.inj (hconvO : (Except.ok AVal.null : Except String AVal) = .ok avO)).symm
      obtain rfl : avM = .null :=
        (Except.ok.inj (hconvM : (Except.ok AVal.null : Except String AVal) = .ok avM)).symm
      obtain ⟨E, hE, hEshape⟩ := convert_blind_detectors _ hD
      obtain rfl : avD = .map E := by
        have h2 : Except.map AVal.map
            (convertEntriesD (fun w => convert (.map .float64) w)
              (ifos.foldl
                (fun acc ifo => dictAssign acc ifo.name (detectorEntry true ifo)) []))
            = .ok avD := hconvD
        rw [hE] at h2
        exact (Except.ok.inj h2).symm
      obtain ⟨dets, hdets, hprop⟩ :=
        parse_blind_detectors (toPyPairs E) (toPyPairs_blind_detectors E hEshape)
      refine ⟨parse_metadata_dict (toPyRow row), by simp [toPylist], ?_, ?_, ?_, ?_,
        dets, ?_, hprop⟩
      · rw [pyLookup_parse_metadata_dict, pyLookup_toPyRow_of_mem hnd hmemI]; rfl
      · rw [pyLookup_parse_metadata_dict, pyLookup_toPyRow_of_mem hnd hmemS]; rfl
      · rw [pyLookup_parse_metadata_dict, pyLookup_toPyRow_of_mem hnd hmemO]; rfl
      · rw [pyLookup_parse_metadata_dict, pyLookup_toPyRow_of_mem hnd hmemM]; rfl
      · rw [pyLookup_parse_metadata_dict, pyLookup_toPyRow_of_mem hnd hmemD]
        show Option.some (parseField "detectors" (PyVal.list (toPyPairs E)))
          = Option.some (PyVal.dict dets)
        rw [hdets]

/-- Witness for C8 at a concrete blinded record: its saved table's decode
parse step yields `None` for all blinded fields and for both per-detector
SNR entries. -/
theorem blinding_consistency_witness :
    ∃ d, (toPylist savedTableB).map parse_metadata_dict = [d]
      ∧ pyLookup d "injection_parameters" = Option.some .none
      ∧ pyLookup d "seed" = Option.some .none
      ∧ pyLookup d "network_optimal_snr" = Option.some .none
      ∧ pyLookup d "network_matched_filter_snr" = Option.some .none
      ∧ ∃ dets, pyLookup d "detectors" = Option.some (.dict dets)
          ∧ ∀ kv ∈ dets, ∃ inner, kv.2 = PyVal.dict inner
              ∧ pyLookup inner "optimal_snr" = Option.some .none
              ∧ pyLookup inner "matched_filter_snr" = Option.some .none :=
  (blinding_consistency 1 4 2048 0 0 [("mass_1", .float 30)]
      [("waveform_approximant", .str "X")] (.dict [])
      [⟨"H1", 20, 1024, 10, 9⟩]).2.2 savedTableB rfl
